import Mathlib

/-!
Shallow embedding of the enrichment pipeline of `src/scripts/enrich_jobs.py`
(the `aimarketpulse` repository): the per-record enrichment classifier
(`process_jobs` and its helper functions) and the market-intelligence
aggregator (`generate_market_intelligence`), together with theorems checking
the specification's claims about them.

Modelling conventions:
* Python text is modelled as `List Char` (`Str`); `str.lower()` as a
  character-wise `Char.toLower` map; the substring test `needle in hay` as
  `hasSub`.
* A pandas cell that may be missing (`NaN`) is an `Option`; `pd.isna`/
  `pd.notna` become `Option.isNone`/`Option.isSome`.  A raw numeric salary
  cell is `Option (Option Int)`: `none` = missing cell, `some none` = present
  but unparseable text, `some (some n)` = `int(float(cell)) = n` (the
  string-to-number parse itself is not re-modelled).
* `date.today()` is I/O; `process_jobs` takes the import date and week
  strings as parameters instead.  The `date` key of the intelligence summary
  is omitted for the same reason.
* Python's `round(x, 1)` on a float is modelled as exact half-even rounding
  on `ℚ` (`roundHalfEven`).
* Python dicts (`SKILL_KEYWORDS`, `METRO_MAPPING`, …) iterate in insertion
  order, so they are embedded as association lists in source order;
  `collections.Counter` is embedded as an association list updated by `bump`
  (new keys appended at the end = first-occurrence order, like a dict).
-/

namespace EnrichJobs

/-- Python text, as a list of characters. -/
abbrev Str := List Char

/-- The `str.lower()` method, character by character. -/
def lower (s : Str) : Str := s.map Char.toLower

/-- The Python substring test `needle in hay`. -/
def hasSub (needle : Str) : Str → Bool
  | [] => needle.isEmpty
  | c :: rest => needle.isPrefixOf (c :: rest) || hasSub needle rest

/-- Substring test with a string-literal needle against already-lowered text. -/
def inStr (needle : String) (hay : Str) : Bool := hasSub needle.toList hay

/-- Python slicing `s[:n]` on a string. -/
def strTake (n : Nat) (s : String) : String := ⟨s.data.take n⟩

/-- Lexicographic (code-point) string comparison, Python's `<=` on `str`,
used by `sorted(...)`. -/
def strLe : Str → Str → Bool
  | [], _ => true
  | _ :: _, [] => false
  | a :: as, b :: bs => if a = b then strLe as bs else decide (a < b)

/-- Insertion of one element into a sorted list, after any elements the
comparison does not put strictly later: the building block of `pySort`. -/
def insertLe {α : Type} (le : α → α → Bool) (a : α) : List α → List α
  | [] => [a]
  | h :: t => if le h a then h :: insertLe le a t else a :: h :: t

/-- A stable sort by the boolean comparison `le` (insertion sort, processing
the input left to right).  It models Python's stable `list.sort` /
`sorted`: on a total transitive comparison both produce the unique sorted
stable rearrangement. -/
def pySort {α : Type} (le : α → α → Bool) (l : List α) : List α :=
  l.foldl (fun acc x => insertLe le x acc) []

/-- Python's two-argument `min` on integers (ties keep the accumulator). -/
def intMin (a b : Int) : Int := if b < a then b else a

/-- Python's two-argument `max` on integers (ties keep the accumulator). -/
def intMax (a b : Int) : Int := if a < b then b else a

/-- The `SKILL_KEYWORDS` dict (lines 26-104): lowercase keyword variant →
canonical skill name, in source order.  Many-to-one (e.g. both `gpt-4` and
`gpt4` map to `GPT-4`). -/
def SKILL_KEYWORDS : List (String × String) := [
  ("langchain", "LangChain"),
  ("llamaindex", "LlamaIndex"),
  ("llama index", "LlamaIndex"),
  ("semantic kernel", "Semantic Kernel"),
  ("haystack", "Haystack"),
  ("autogen", "AutoGen"),
  ("crewai", "CrewAI"),
  ("dspy", "DSPy"),
  ("openai", "OpenAI"),
  ("anthropic", "Anthropic"),
  ("claude", "Claude"),
  ("gpt-4", "GPT-4"),
  ("gpt-3", "GPT-3"),
  ("gpt4", "GPT-4"),
  ("llama", "Llama"),
  ("mistral", "Mistral"),
  ("gemini", "Gemini"),
  ("cohere", "Cohere"),
  ("hugging face", "Hugging Face"),
  ("huggingface", "Hugging Face"),
  ("rag", "RAG"),
  ("retrieval augmented", "RAG"),
  ("fine-tuning", "Fine-tuning"),
  ("fine tuning", "Fine-tuning"),
  ("prompt engineering", "Prompt Engineering"),
  ("embeddings", "Embeddings"),
  ("vector search", "Vector Search"),
  ("rlhf", "RLHF"),
  ("chain of thought", "Chain of Thought"),
  ("multimodal", "Multimodal"),
  ("agentic", "AI Agents"),
  ("ai agent", "AI Agents"),
  ("pinecone", "Pinecone"),
  ("weaviate", "Weaviate"),
  ("milvus", "Milvus"),
  ("qdrant", "Qdrant"),
  ("chroma", "Chroma"),
  ("pgvector", "pgvector"),
  ("faiss", "FAISS"),
  ("pytorch", "PyTorch"),
  ("tensorflow", "TensorFlow"),
  ("transformers", "Transformers"),
  ("jax", "JAX"),
  ("keras", "Keras"),
  ("scikit-learn", "scikit-learn"),
  ("sklearn", "scikit-learn"),
  ("python", "Python"),
  ("typescript", "TypeScript"),
  ("javascript", "JavaScript"),
  ("rust", "Rust"),
  ("golang", "Go"),
  (" go ", "Go"),
  ("aws", "AWS"),
  ("azure", "Azure"),
  ("gcp", "GCP"),
  ("google cloud", "GCP"),
  ("kubernetes", "Kubernetes"),
  ("docker", "Docker"),
  ("mlflow", "MLflow"),
  ("wandb", "Weights & Biases"),
  ("weights & biases", "Weights & Biases"),
  ("sagemaker", "SageMaker"),
  ("bedrock", "Bedrock"),
  ("vertex ai", "Vertex AI")]

/-- The `SKILL_CATEGORIES` dict (lines 107-162): canonical skill name →
insights grouping. -/
def SKILL_CATEGORIES : List (String × String) := [
  ("LangChain", "LLM Frameworks"),
  ("LlamaIndex", "LLM Frameworks"),
  ("Semantic Kernel", "LLM Frameworks"),
  ("Haystack", "LLM Frameworks"),
  ("AutoGen", "LLM Frameworks"),
  ("CrewAI", "LLM Frameworks"),
  ("DSPy", "LLM Frameworks"),
  ("OpenAI", "LLM Providers"),
  ("Anthropic", "LLM Providers"),
  ("Claude", "LLM Providers"),
  ("GPT-4", "LLM Providers"),
  ("GPT-3", "LLM Providers"),
  ("Llama", "LLM Providers"),
  ("Mistral", "LLM Providers"),
  ("Gemini", "LLM Providers"),
  ("Cohere", "LLM Providers"),
  ("Hugging Face", "LLM Providers"),
  ("RAG", "Techniques"),
  ("Fine-tuning", "Techniques"),
  ("Prompt Engineering", "Techniques"),
  ("Embeddings", "Techniques"),
  ("Vector Search", "Techniques"),
  ("RLHF", "Techniques"),
  ("Chain of Thought", "Techniques"),
  ("Multimodal", "Techniques"),
  ("AI Agents", "Techniques"),
  ("Pinecone", "Vector Databases"),
  ("Weaviate", "Vector Databases"),
  ("Milvus", "Vector Databases"),
  ("Qdrant", "Vector Databases"),
  ("Chroma", "Vector Databases"),
  ("pgvector", "Vector Databases"),
  ("FAISS", "Vector Databases"),
  ("PyTorch", "ML Frameworks"),
  ("TensorFlow", "ML Frameworks"),
  ("Transformers", "ML Frameworks"),
  ("JAX", "ML Frameworks"),
  ("Keras", "ML Frameworks"),
  ("scikit-learn", "ML Frameworks"),
  ("Python", "Languages"),
  ("TypeScript", "Languages"),
  ("JavaScript", "Languages"),
  ("Rust", "Languages"),
  ("Go", "Languages"),
  ("AWS", "Cloud/Infrastructure"),
  ("Azure", "Cloud/Infrastructure"),
  ("GCP", "Cloud/Infrastructure"),
  ("Kubernetes", "Cloud/Infrastructure"),
  ("Docker", "Cloud/Infrastructure"),
  ("MLflow", "Cloud/Infrastructure"),
  ("Weights & Biases", "Cloud/Infrastructure"),
  ("SageMaker", "Cloud/Infrastructure"),
  ("Bedrock", "Cloud/Infrastructure"),
  ("Vertex AI", "Cloud/Infrastructure")]

/-- The `CATEGORY_RULES` list (lines 166-324): ordered (keyword, category)
pairs, first match wins; more specific rules come before general ones. -/
def CATEGORY_RULES : List (String × String) := [
  ("prompt engineer", "Prompt Engineer"),
  ("prompt specialist", "Prompt Engineer"),
  ("ai agent", "AI Agent Developer"),
  ("agent developer", "AI Agent Developer"),
  ("agent engineer", "AI Agent Developer"),
  ("rag engineer", "RAG Engineer"),
  ("rag developer", "RAG Engineer"),
  ("llm engineer", "LLM Engineer"),
  ("llm developer", "LLM Engineer"),
  ("llm specialist", "LLM Engineer"),
  ("large language model", "LLM Engineer"),
  ("mlops", "MLOps Engineer"),
  ("ml ops", "MLOps Engineer"),
  ("ml infrastructure", "MLOps Engineer"),
  ("ml platform", "MLOps Engineer"),
  ("machine learning platform", "MLOps Engineer"),
  ("ai infrastructure", "MLOps Engineer"),
  ("ai platform engineer", "MLOps Engineer"),
  ("ai safety", "AI Safety"),
  ("ai ethics", "AI Safety"),
  ("responsible ai", "AI Safety"),
  ("ai governance", "AI Safety"),
  ("ai product manager", "AI Product Manager"),
  ("product manager ai", "AI Product Manager"),
  ("product manager ml", "AI Product Manager"),
  ("product manager, ai", "AI Product Manager"),
  ("product manager, ml", "AI Product Manager"),
  ("ml product manager", "AI Product Manager"),
  ("ai pm", "AI Product Manager"),
  ("applied scientist", "Research Scientist"),
  ("research scientist", "Research Scientist"),
  ("staff scientist", "Research Scientist"),
  ("ml scientist", "Research Scientist"),
  ("ai scientist", "Research Scientist"),
  ("research engineer", "Research Engineer"),
  ("ml research", "Research Engineer"),
  ("ai research", "Research Engineer"),
  ("artificial intelligence engineer", "AI/ML Engineer"),
  ("machine learning engineer", "AI/ML Engineer"),
  ("ml engineer", "AI/ML Engineer"),
  ("ai engineer", "AI/ML Engineer"),
  ("ai/ml engineer", "AI/ML Engineer"),
  ("ai developer", "AI/ML Engineer"),
  ("ml developer", "AI/ML Engineer"),
  ("nlp engineer", "AI/ML Engineer"),
  ("natural language", "AI/ML Engineer"),
  ("deep learning engineer", "AI/ML Engineer"),
  ("deep learning", "AI/ML Engineer"),
  ("generative ai", "AI/ML Engineer"),
  ("gen ai", "AI/ML Engineer"),
  ("genai", "AI/ML Engineer"),
  ("computer vision engineer", "AI/ML Engineer"),
  ("computer vision", "AI/ML Engineer"),
  ("cv engineer", "AI/ML Engineer"),
  ("speech recognition", "AI/ML Engineer"),
  ("speech engineer", "AI/ML Engineer"),
  ("recommendation system", "AI/ML Engineer"),
  ("recommendations engineer", "AI/ML Engineer"),
  ("software engineer, ai", "AI Software Engineer"),
  ("software engineer, ml", "AI Software Engineer"),
  ("software engineer - ai", "AI Software Engineer"),
  ("software engineer - ml", "AI Software Engineer"),
  ("sr. software engineer, ai", "AI Software Engineer"),
  ("senior software engineer, ai", "AI Software Engineer"),
  ("ai software engineer", "AI Software Engineer"),
  ("ai full-stack", "AI Software Engineer"),
  ("ai-native", "AI Software Engineer"),
  ("ai backend", "AI Software Engineer"),
  ("engineering manager, ai", "AI Engineering Manager"),
  ("engineering manager, ml", "AI Engineering Manager"),
  ("engineering manager - ai", "AI Engineering Manager"),
  ("ai engineering manager", "AI Engineering Manager"),
  ("ml engineering manager", "AI Engineering Manager"),
  ("manager, ai", "AI Engineering Manager"),
  ("manager, ml", "AI Engineering Manager"),
  ("manager, applied ai", "AI Engineering Manager"),
  ("head of ai", "AI Engineering Manager"),
  ("head of ml", "AI Engineering Manager"),
  ("director of ai", "AI Engineering Manager"),
  ("director of ml", "AI Engineering Manager"),
  ("vp of ai", "AI Engineering Manager"),
  ("vp, ai", "AI Engineering Manager"),
  ("ai architect", "AI Architect"),
  ("ml architect", "AI Architect"),
  ("ai enterprise architect", "AI Architect"),
  ("cloud ai architect", "AI Architect"),
  ("solutions architect, ai", "AI Architect"),
  ("solutions architect ai", "AI Architect"),
  ("data scientist", "Data Scientist"),
  ("senior data scientist", "Data Scientist"),
  ("staff data scientist", "Data Scientist"),
  ("principal data scientist", "Data Scientist"),
  ("lead data scientist", "Data Scientist"),
  ("data engineer", "Data Engineer"),
  ("senior data engineer", "Data Engineer"),
  ("lead data engineer", "Data Engineer"),
  ("staff data engineer", "Data Engineer"),
  ("data engineering", "Data Engineer"),
  ("analytics engineer", "Data Engineer"),
  ("ai devops", "AI/ML Engineer"),
  ("ai cloud", "AI/ML Engineer"),
  ("ai infrastructure engineer", "AI/ML Engineer"),
  ("ai consultant", "AI Consultant"),
  ("ai specialist", "AI Consultant"),
  ("ai functional", "AI Consultant"),
  ("ai advisor", "AI Consultant"),
  ("ai product architect", "AI Product Manager"),
  ("ai/ml product", "AI Product Manager"),
  ("product architect, ai", "AI Product Manager"),
  ("ai native", "AI Software Engineer"),
  ("ai-native", "AI Software Engineer"),
  ("sr. developer ai", "AI Software Engineer"),
  ("developer ai", "AI Software Engineer"),
  ("developer, ai", "AI Software Engineer"),
  ("language engineer", "AI/ML Engineer"),
  ("agi ", "AI/ML Engineer"),
  ("artificial general intelligence", "AI/ML Engineer"),
  (", ai", "AI/ML Engineer"),
  ("- ai", "AI/ML Engineer"),
  (" ai ", "AI/ML Engineer"),
  (" ai/", "AI/ML Engineer"),
  ("/ai ", "AI/ML Engineer")]

/-- The `METRO_MAPPING` dict (lines 327-349), in source order. -/
def METRO_MAPPING : List (String × String) := [
  ("san francisco", "San Francisco"),
  ("sf", "San Francisco"),
  ("bay area", "San Francisco"),
  ("palo alto", "San Francisco"),
  ("menlo park", "San Francisco"),
  ("mountain view", "San Francisco"),
  ("sunnyvale", "San Francisco"),
  ("san jose", "San Francisco"),
  ("new york", "New York"),
  ("nyc", "New York"),
  ("manhattan", "New York"),
  ("brooklyn", "New York"),
  ("seattle", "Seattle"),
  ("austin", "Austin"),
  ("boston", "Boston"),
  ("los angeles", "Los Angeles"),
  ("la", "Los Angeles"),
  ("chicago", "Chicago"),
  ("denver", "Denver"),
  ("atlanta", "Atlanta"),
  ("remote", "Remote")]

/-- The `SENIORITY_PATTERNS` dict (lines 352-359): level → keyword list,
in source order. -/
def SENIORITY_PATTERNS : List (String × List String) := [
  ("C-Level", ["chief", "cto", "cio", "cao", "cdo", "head of ai", "vp of ai"]),
  ("VP", ["vice president", "vp ", " vp,", "vp,"]),
  ("Director", ["director", "head of"]),
  ("Senior", ["senior", "sr.", "sr ", "staff", "principal", "lead"]),
  ("Mid", ["mid", "ii", "iii"]),
  ("Entry", ["junior", "jr.", "jr ", "entry", "associate", " i ", " 1 "])]

/-- The `TECH_COMPANY_KEYWORDS` list (lines 362-367). -/
def TECH_COMPANY_KEYWORDS : List String := [
  "software", "saas", "tech", "ai", "cloud", "data", "platform",
  "digital", "cyber", "fintech", "analytics", "machine learning",
  "automation", "api", "infrastructure", "labs", "systems",
  "intelligence", "robotics", "computing", "neural", "cognitive"]

/-- The `COMPANY_STAGE_PATTERNS` dict (lines 370-375). -/
def COMPANY_STAGE_PATTERNS : List (String × List String) := [
  ("Startup (Seed)", ["seed", "pre-seed", "angel"]),
  ("Startup (Series A-B)", ["series a", "series b", "early stage", "early-stage"]),
  ("Growth (Series C+)", ["series c", "series d", "series e", "growth stage",
    "growth-stage", "late stage"]),
  ("Enterprise/Public", ["fortune 500", "fortune500", "public company",
    "nasdaq", "nyse", "enterprise"])]

/-- The `AI_BUZZWORDS` list (lines 378-383). -/
def AI_BUZZWORDS : List String := [
  "production-ready", "scalable", "enterprise-grade", "state-of-the-art",
  "cutting-edge", "innovative", "groundbreaking", "revolutionary",
  "next-generation", "world-class", "fast-paced", "dynamic",
  "collaborative", "cross-functional", "end-to-end", "full-stack"]

/-- The `RED_FLAG_PATTERNS` dict (lines 386-391). -/
def RED_FLAG_PATTERNS : List (String × List String) := [
  ("vague_compensation", ["competitive salary", "competitive compensation",
    "commensurate with experience"]),
  ("unrealistic_requirements", ["10+ years", "10 years", "phd required",
    "must have phd"]),
  ("overwork_signals", ["wear many hats", "fast-paced", "startup mentality",
    "hustle", "24/7"]),
  ("vague_role", ["various duties", "other duties as assigned",
    "jack of all trades"])]

/-- The `for keyword, category in RULES: if keyword in text: return category`
loop shared by `categorize_job` (line 416) and `normalize_metro` (line 455):
the value of the first rule whose keyword is a substring of the (already
lowered) text, if any. -/
def firstRuleMatch : List (String × String) → Str → Option String
  | [], _ => none
  | (kw, v) :: rest, t => if inStr kw t then some v else firstRuleMatch rest t

/-- The nested `for level, patterns: for pattern: if pattern in text: return
level` loop shared by `classify_seniority` (line 469) and
`detect_company_stage` (line 493): returning on the first matching pattern
inside a level is the same as taking the first level any of whose patterns
matches. -/
def firstLevelMatch : List (String × List String) → Str → Option String
  | [], _ => none
  | (lvl, pats) :: rest, t =>
    if pats.any (fun p => inStr p t) then some lvl else firstLevelMatch rest t

/-- The Python `sorted` on a list of strings (code-point order). -/
def sortedStrings (l : List String) : List String :=
  pySort (fun a b => strLe a.toList b.toList) l

/-- The function `extract_skills` (lines 394-406).  The `if not text or
pd.isna(text)` guard makes a missing or empty description yield `[]`; the
Python `set` is `List.dedup` and `sorted(list(...))` is `sortedStrings`. -/
def extract_skills (text : Option String) : List String :=
  match text with
  | none => []
  | some t =>
    if t = "" then []
    else
      sortedStrings
        ((SKILL_KEYWORDS.filterMap fun p =>
          if inStr p.1 (lower t.toList) then some p.2 else none).dedup)

/-- The function `categorize_job` (lines 409-420). -/
def categorize_job (title : Option String) : String :=
  match title with
  | none => "Other AI Role"
  | some t =>
    if t = "" then "Other AI Role"
    else (firstRuleMatch CATEGORY_RULES (lower t.toList)).getD "Other AI Role"

/-- The function `determine_remote_type` (lines 423-433).  `is_remote` here is
the raw boolean cell; `str(row.get('location', ''))` of a missing (NaN) cell
is the string `"nan"`, which contains neither `remote` nor `hybrid`. -/
def determine_remote_type (is_remote : Bool) (location : Option String) : String :=
  let loc := lower (location.getD "nan").toList
  if is_remote || inStr "remote" loc then "remote"
  else if inStr "hybrid" loc then "hybrid"
  else "onsite"

/-- The function `determine_experience_level` (lines 436-445), on the
f-string `f"{title} {description}"` lowered. -/
def determine_experience_level (title description : String) : String :=
  let text := lower (title.toList ++ ' ' :: description.toList)
  if ["senior", "sr.", "sr ", "lead", "principal", "staff", "head of",
      "director"].any (fun w => inStr w text) then "senior"
  else if ["junior", "jr.", "jr ", "entry", "associate", " i ",
      " ii "].any (fun w => inStr w text) then "entry"
  else "mid"

/-- The function `normalize_metro` (lines 448-459): `None` for a missing or
empty location, else the first matching metro pattern, else `None`. -/
def normalize_metro (location : Option String) : Option String :=
  match location with
  | none => none
  | some s =>
    if s = "" then none
    else firstRuleMatch METRO_MAPPING (lower s.toList)

/-- The function `classify_seniority` (lines 462-474). -/
def classify_seniority (title : Option String) : String :=
  match title with
  | none => "Mid"
  | some t =>
    if t = "" then "Mid"
    else (firstLevelMatch SENIORITY_PATTERNS (lower t.toList)).getD "Mid"

/-- The function `detect_tech_company` (lines 477-483), on
`f"{company} {description}"` lowered. -/
def detect_tech_company (company description : String) : Bool :=
  if company = "" then false
  else
    TECH_COMPANY_KEYWORDS.any fun k =>
      inStr k (lower (company.toList ++ ' ' :: description.toList))

/-- The function `detect_company_stage` (lines 486-498). -/
def detect_company_stage (description : Option String) : String :=
  match description with
  | none => "Unknown"
  | some d =>
    if d = "" then "Unknown"
    else (firstLevelMatch COMPANY_STAGE_PATTERNS (lower d.toList)).getD "Unknown"

/-- The placeholder test `str(x) not in ['', 'nan', 'None']` of
`calculate_data_quality`, on a present cell. -/
def notPlaceholder (s : String) (extra : List String) : Bool :=
  decide (s ∉ ("" :: "nan" :: "None" :: extra))

/-- The function `calculate_data_quality` (lines 501-521), an additive score
over the raw row: +40 description present and longer than 100 characters,
+30 either raw salary bound present, +15 location present and not a
placeholder, +15 company present and not a placeholder (also excluding
`Unknown`). -/
def calculate_data_quality (description location company : Option String)
    (min_amount max_amount : Option (Option Int)) : Nat :=
  (if (match description with
       | some d => decide (100 < d.length)
       | none => false) then 40 else 0) +
  (if min_amount.isSome || max_amount.isSome then 30 else 0) +
  (if (match location with
       | some s => notPlaceholder s []
       | none => false) then 15 else 0) +
  (if (match company with
       | some s => notPlaceholder s ["Unknown"]
       | none => false) then 15 else 0)

/-- The function `get_data_quality_label` (lines 524-531). -/
def get_data_quality_label (score : Nat) : String :=
  if 85 ≤ score then "Premium"
  else if 55 ≤ score then "Good"
  else "Basic"

/-- The function `extract_red_flags` (lines 534-548): each flag type is
appended at most once (the inner loop breaks on the first matching
pattern), in dict order. -/
def extract_red_flags (description : Option String) : List String :=
  match description with
  | none => []
  | some d =>
    if d = "" then []
    else
      RED_FLAG_PATTERNS.filterMap fun p =>
        if p.2.any (fun pat => inStr pat (lower d.toList)) then some p.1 else none

/-- The function `extract_buzzwords` (lines 551-563). -/
def extract_buzzwords (description : Option String) : List String :=
  match description with
  | none => []
  | some d =>
    if d = "" then []
    else AI_BUZZWORDS.filter fun b => inStr b (lower d.toList)

/-- Python truthiness of an optional integer: `None` and `0` are falsy. -/
def truthy : Option Int → Bool
  | none => false
  | some n => decide (n ≠ 0)

/-- The parse step of lines 583-592: `int(float(cell))` succeeds only on a
present, parseable cell (`some (some n)`); a missing cell or a parse failure
(the bare `except: pass`) leaves the salary `None`. -/
def parsedAmt : Option (Option Int) → Option Int
  | some (some n) => some n
  | _ => none

/-- The interval test of line 595: the lowered interval text contains
`hour`. -/
def hourlyInterval : Option String → Bool
  | none => false
  | some iv => inStr "hour" (lower iv.toList)

/-- The hourly-to-annual conversion of lines 598-601: when the interval is
hourly, a truthy parsed amount strictly below 500 is multiplied by 2080
(`if salary_min and salary_min < 500`). -/
def annualize (isHourly : Bool) (a : Option Int) : Option Int :=
  if isHourly then
    match a with
    | some n => if truthy (some n) && decide (n < 500) then some (n * 2080) else some n
    | none => none
  else a

/-- One raw scraped row of the input DataFrame.  `none` models a missing
(NaN) cell; raw numeric salary cells additionally record parseability, see
the file header.  `is_remote` is the raw boolean flag read at line 425. -/
structure RawRow where
  id : Option String := none
  title : Option String := none
  company : Option String := none
  location : Option String := none
  description : Option String := none
  min_amount : Option (Option Int) := none
  max_amount : Option (Option Int) := none
  interval : Option String := none
  is_remote : Bool := false
  date_posted : Option String := none
  site : Option String := none
  job_url : Option String := none
  job_url_direct : Option String := none
deriving DecidableEq, Repr

/-- One enriched job record: the dict built at lines 613-648. -/
structure Job where
  job_id : String
  title : String
  company : String
  location : String
  metro : Option String
  remote_type : String
  is_remote : Bool
  salary_min : Option Int
  salary_max : Option Int
  min_amount : Option Int
  max_amount : Option Int
  salary_type : String
  experience_level : String
  seniority : String
  job_category : String
  skills_tags : List String
  is_tech : Bool
  company_stage : String
  data_quality_score : Nat
  data_quality : String
  has_description : Bool
  has_salary : Bool
  red_flags : List String
  buzzwords : List String
  date_posted : Option String
  date_scraped : String
  import_date : String
  import_week : String
  week_added : String
  source : String
  source_url : String
  job_url_direct : String
  description : String
  description_snippet : String
deriving DecidableEq, Repr

/-- The loop body of `process_jobs` (lines 573-650) for one row: `none` when
the title is missing (`if pd.isna(row.get('title')): continue`), otherwise
the enriched record.  `importDate` and `importWeek` stand for the
`date.today()`-derived strings computed once at lines 569-571 (also used for
`date_scraped`). -/
def enrichOne (importDate importWeek : String) (r : RawRow) : Option Job :=
  match r.title with
  | none => none
  | some title =>
    let isHourly := hourlyInterval r.interval
    let salary_min := annualize isHourly (parsedAmt r.min_amount)
    let salary_max := annualize isHourly (parsedAmt r.max_amount)
    let salary_type := if isHourly then "hourly" else "annual"
    let description := r.description.getD ""
    let location := r.location.getD ""
    let company := r.company.getD "Unknown"
    let q := calculate_data_quality r.description r.location r.company
      r.min_amount r.max_amount
    let url := (r.job_url.orElse fun _ => r.job_url_direct).getD ""
    some {
      job_id := match r.id with | some i => strTake 12 i | none => ""
      title := title
      company := company
      location := location
      metro := normalize_metro (some location)
      remote_type := determine_remote_type r.is_remote r.location
      is_remote := determine_remote_type r.is_remote r.location == "remote"
      salary_min := salary_min
      salary_max := salary_max
      min_amount := salary_min
      max_amount := salary_max
      salary_type := salary_type
      experience_level := determine_experience_level title description
      seniority := classify_seniority (some title)
      job_category := categorize_job (some title)
      skills_tags := extract_skills (some description)
      is_tech := detect_tech_company company description
      company_stage := detect_company_stage (some description)
      data_quality_score := q
      data_quality := get_data_quality_label q
      has_description := (!decide (description = "")) && decide (100 < description.length)
      has_salary := truthy salary_min || truthy salary_max
      red_flags := extract_red_flags (some description)
      buzzwords := extract_buzzwords (some description)
      date_posted := r.date_posted.map (strTake 10)
      date_scraped := importDate
      import_date := importDate
      import_week := importWeek
      week_added := importDate
      source := r.site.getD "indeed"
      source_url := url
      job_url_direct := url
      description := description
      description_snippet := if description = "" then "" else strTake 500 description }

/-- The function `process_jobs` (lines 566-652): one enriched record per raw
row that has a title, in order; title-less rows are skipped. -/
def process_jobs (importDate importWeek : String) (df : List RawRow) : List Job :=
  df.filterMap (enrichOne importDate importWeek)

/-- One `counter[k] += 1` update on a `collections.Counter`, embedded as an
association list: an existing key is incremented in place, a new key is
appended at the end (dict first-insertion order). -/
def bump (k : String) : List (String × Nat) → List (String × Nat)
  | [] => [(k, 1)]
  | (a, n) :: rest => if a = k then (a, n + 1) :: rest else (a, n) :: bump k rest

/-- A `Counter` built by bumping once per list element, in order. -/
def countList (ks : List String) : List (String × Nat) :=
  ks.foldl (fun acc k => bump k acc) []

/-- The `Counter.most_common()` ordering: stable sort by count, descending. -/
def mostCommonAll (c : List (String × Nat)) : List (String × Nat) :=
  pySort (fun a b => decide (b.2 ≤ a.2)) c

/-- The `Counter.most_common(n)` truncation. -/
def mostCommonTake (n : Nat) (c : List (String × Nat)) : List (String × Nat) :=
  (mostCommonAll c).take n

/-- One `dict.setdefault(k, []).append(v)`-style update of the
`salaries_by_category` / `salaries_by_seniority` dicts (lines 719-727). -/
def appendAt (k : String) (v : Int) :
    List (String × List Int) → List (String × List Int)
  | [] => [(k, [v])]
  | (a, l) :: rest =>
    if a = k then (a, l ++ [v]) :: rest else (a, l) :: appendAt k v rest

/-- The `salaries` list of lines 714-717: the `salary_max` of each job whose
`salary_max` is truthy (`if job.get('salary_max')` — skips both `None` and
`0`), in job order. -/
def salariesOf (jobs : List Job) : List Int :=
  jobs.filterMap fun j => if truthy j.salary_max then j.salary_max else none

/-- The per-key salary buckets of lines 719-727, keyed by a job field. -/
def salariesBy (key : Job → String) (jobs : List Job) :
    List (String × List Int) :=
  jobs.foldl
    (fun acc j =>
      if truthy j.salary_max then appendAt (key j) (j.salary_max.getD 0) acc
      else acc) []

/-- The Python `list.sort()` on integers (ascending). -/
def sortInt (l : List Int) : List Int := pySort (fun a b => decide (a ≤ b)) l

/-- The Python builtin `min` over a nonempty list (0 on `[]`, unreachable). -/
def pyMin : List Int → Int
  | [] => 0
  | h :: t => t.foldl intMin h

/-- The Python builtin `max` over a nonempty list (0 on `[]`, unreachable). -/
def pyMax : List Int → Int
  | [] => 0
  | h :: t => t.foldl intMax h

/-- The `salary_stats` dict of lines 746-752. -/
structure SalaryStats where
  min : Int
  max : Int
  median : Int
  avg : Int
  count : Nat
deriving DecidableEq, Repr

/-- The global salary statistics of lines 742-752: empty (`none`) when there
are no salaries, otherwise min, max, the element at index `len // 2` of the
sorted list, the floor-divided mean `sum // len`, and the sample count. -/
def salaryStats (salaries : List Int) : Option SalaryStats :=
  match salaries with
  | [] => none
  | _ :: _ =>
    let s := sortInt salaries
    some { min := pyMin s, max := pyMax s,
           median := s.getD (s.length / 2) 0,
           avg := Int.fdiv s.sum (s.length : Int),
           count := s.length }

/-- One per-bucket entry of `salary_by_category` / `salary_by_seniority`
(lines 754-774). -/
structure BucketStats where
  median : Int
  avg : Int
  count : Nat
deriving DecidableEq, Repr

/-- The per-bucket median / mean / count of lines 758-763. -/
def bucketStats (sals : List Int) : BucketStats :=
  let s := sortInt sals
  { median := s.getD (s.length / 2) 0,
    avg := Int.fdiv s.sum (s.length : Int),
    count := s.length }

/-- One step of the `skills_by_category` grouping of lines 735-740. -/
def addGrouped (cat skill : String) (n : Nat) :
    List (String × List (String × Nat)) → List (String × List (String × Nat))
  | [] => [(cat, [(skill, n)])]
  | (c, m) :: rest =>
    if c = cat then (c, m ++ [(skill, n)]) :: rest
    else (c, m) :: addGrouped cat skill n rest

/-- The `skills_by_category` grouping of lines 735-740. -/
def skillsByCategory (skill_counts : List (String × Nat)) :
    List (String × List (String × Nat)) :=
  skill_counts.foldl
    (fun acc p =>
      addGrouped ((List.lookup p.1 SKILL_CATEGORIES).getD "Other") p.1 p.2 acc)
    []

/-- Half-even (banker's) rounding on an exact rational, the behaviour of the
Python builtin `round` at ties. -/
def roundHalfEven (q : ℚ) : ℤ :=
  let f := ⌊q⌋
  if q - f < 1 / 2 then f
  else if (1 : ℚ) / 2 < q - f then f + 1
  else if f % 2 = 0 then f else f + 1

/-- The intelligence summary dict of lines 776-795.  The `date` key
(`date.today()`) is omitted as runtime I/O; Python's 1-decimal float
rounding for `tech_percentage` is modelled exactly on `ℚ`. -/
structure Intel where
  total_jobs : Nat
  skills : List (String × Nat)
  skills_by_category : List (String × List (String × Nat))
  categories : List (String × Nat)
  experience_levels : List (String × Nat)
  seniority_breakdown : List (String × Nat)
  remote_breakdown : List (String × Nat)
  top_metros : List (String × Nat)
  company_stages : List (String × Nat)
  tech_companies : Nat
  tech_percentage : ℚ
  data_quality_breakdown : List (String × Nat)
  salary_stats : Option SalaryStats
  salary_by_category : List (String × BucketStats)
  salary_by_seniority : List (String × BucketStats)
  buzzwords : List (String × Nat)
  red_flags : List (String × Nat)
deriving DecidableEq, Repr

/-- The function `generate_market_intelligence` (lines 655-797). -/
def generate_market_intelligence (jobs : List Job) : Intel :=
  let all_skills := jobs.foldl (fun acc j => acc ++ j.skills_tags) []
  let all_buzzwords := jobs.foldl (fun acc j => acc ++ j.buzzwords) []
  let all_red_flags := jobs.foldl (fun acc j => acc ++ j.red_flags) []
  let skill_counts := countList all_skills
  let tech_count := (jobs.filter (·.is_tech)).length
  { total_jobs := jobs.length
    skills := mostCommonTake 50 skill_counts
    skills_by_category := skillsByCategory skill_counts
    categories := mostCommonAll (countList (jobs.map (·.job_category)))
    experience_levels := countList (jobs.map (·.experience_level))
    seniority_breakdown := countList (jobs.map (·.seniority))
    remote_breakdown := countList (jobs.map (·.remote_type))
    top_metros := mostCommonTake 10 (countList (jobs.filterMap (·.metro)))
    company_stages := mostCommonAll (countList (jobs.map (·.company_stage)))
    tech_companies := tech_count
    tech_percentage :=
      if jobs.isEmpty then 0
      else (roundHalfEven ((tech_count : ℚ) / (jobs.length : ℚ) * 100 * 10) : ℚ) / 10
    data_quality_breakdown := countList (jobs.map (·.data_quality))
    salary_stats := salaryStats (salariesOf jobs)
    salary_by_category := (salariesBy (·.job_category) jobs).filterMap fun p =>
      if p.2.isEmpty then none else some (p.1, bucketStats p.2)
    salary_by_seniority := (salariesBy (·.seniority) jobs).filterMap fun p =>
      if p.2.isEmpty then none else some (p.1, bucketStats p.2)
    buzzwords := mostCommonTake 20 (countList all_buzzwords)
    red_flags := mostCommonAll (countList all_red_flags) }

/-! ## Definitions used by the claim theorems -/

/-- The categorizer as the specification words it: lower the title and take
the category of the earliest rule of the ordered `CATEGORY_RULES` list whose
keyword occurs as a substring, falling back to `Other AI Role`. -/
def categorizeSpec (t : String) : String :=
  ((CATEGORY_RULES.find? fun p => inStr p.1 (lower t.toList)).map
    Prod.snd).getD "Other AI Role"

/-- The quality score as the specification words it: the sum of four
independent weighted presence indicators. -/
def qualitySpecScore (d l c : Option String) (mn mx : Option (Option Int)) : Nat :=
  40 * (d.any fun s => decide (100 < s.length)).toNat +
  30 * (mn.isSome || mx.isSome).toNat +
  15 * (l.any fun s => notPlaceholder s []).toNat +
  15 * (c.any fun s => notPlaceholder s ["Unknown"]).toNat

/-- A 150-character description for the quality-score example. -/
def longDescription : String := ⟨List.replicate 150 'x'⟩

/-- A malformed row: a title no rule recognizes, a location no metro pattern
recognizes, and a present but unparseable `min_amount` cell. -/
def c7Row : RawRow :=
  { title := some "zzzz", location := some "nowhere ville",
    min_amount := some none }

/-- A row exercising the remote and hourly-salary paths for the C10
witness. -/
def c10Row : RawRow :=
  { title := some "Remote ML Engineer", location := some "Remote - US",
    min_amount := some (some 45), max_amount := some (some 80),
    interval := some "hourly" }

/-- The enriched record of `c10Row`. -/
def c10Job : Job := (enrichOne "2025-01-06" "2025-W01" c10Row).getD
  { job_id := "", title := "", company := "", location := "", metro := none,
    remote_type := "", is_remote := false, salary_min := none,
    salary_max := none, min_amount := none, max_amount := none,
    salary_type := "", experience_level := "", seniority := "",
    job_category := "", skills_tags := [], is_tech := false,
    company_stage := "", data_quality_score := 0, data_quality := "",
    has_description := false, has_salary := false, red_flags := [],
    buzzwords := [], date_posted := none, date_scraped := "",
    import_date := "", import_week := "", week_added := "", source := "",
    source_url := "", job_url_direct := "", description := "",
    description_snippet := "" }

/-- Rows whose `salary_max` values are 0 and 100000: both cells are present
and parse, so both enriched records carry a non-null `salary_max`. -/
def truthyDropRows : List RawRow :=
  [{ title := some "t", max_amount := some (some 0) },
   { title := some "t", max_amount := some (some 100000) }]

/-- The enriched records of `truthyDropRows`. -/
def truthyDropJobs : List Job :=
  process_jobs "2025-01-06" "2025-W01" truthyDropRows

/-- The five-record example collection of the specification, with
`salary_max` values 100000, 120000, 90000, 200000, 110000. -/
def salaryExampleRows : List RawRow :=
  [{ title := some "a", max_amount := some (some 100000) },
   { title := some "b", max_amount := some (some 120000) },
   { title := some "c", max_amount := some (some 90000) },
   { title := some "d", max_amount := some (some 200000) },
   { title := some "e", max_amount := some (some 110000) }]

/-- The enriched records of `salaryExampleRows`. -/
def salaryExampleJobs : List Job :=
  process_jobs "2025-01-06" "2025-W01" salaryExampleRows

/-- The total of an embedded `Counter`: the sum of its per-key counts. -/
def sumCounts (c : List (String × Nat)) : Nat := (c.map Prod.snd).sum

/-! ## Shared lemmas -/

/-- The first-match loop is `List.find?` on the keyword test, projected to
the rule's value. -/
theorem firstRuleMatch_eq_find (rules : List (String × String)) (t : Str) :
    firstRuleMatch rules t =
      (rules.find? fun p => inStr p.1 t).map Prod.snd := by
  induction rules with
  | nil => rfl
  | cons p rest ih =>
    obtain ⟨kw, v⟩ := p
    by_cases h : inStr kw t
    · simp [firstRuleMatch, List.find?_cons, h]
    · simp [firstRuleMatch, List.find?_cons, h, ih]

/-- On a missing parsed amount the hourly conversion is the identity. -/
theorem annualize_none (b : Bool) : annualize b none = none := by
  cases b <;> rfl

/-- Inserting into a list permutes consing onto it. -/
theorem insertLe_perm {α : Type} (le : α → α → Bool) (a : α) (l : List α) :
    (insertLe le a l).Perm (a :: l) := by
  induction l with
  | nil => exact List.Perm.refl _
  | cons h t ih =>
    by_cases hc : le h a
    · simp only [insertLe, if_pos hc]
      exact (ih.cons h).trans (List.Perm.swap a h t)
    · simp only [insertLe, if_neg hc]
      exact List.Perm.refl _

/-- The insertion-sort fold permutes the accumulator plus the input. -/
theorem pySort_perm_aux {α : Type} (le : α → α → Bool) :
    ∀ (l acc : List α),
      (l.foldl (fun acc x => insertLe le x acc) acc).Perm (acc ++ l) := by
  intro l
  induction l with
  | nil => intro acc; simp
  | cons x t ih =>
    intro acc
    simp only [List.foldl_cons]
    refine (ih (insertLe le x acc)).trans ?_
    refine (List.Perm.append_right t (insertLe_perm le x acc)).trans ?_
    exact List.perm_middle.symm

/-- `pySort` permutes its input. -/
theorem pySort_perm {α : Type} (le : α → α → Bool) (l : List α) :
    (pySort le l).Perm l := by
  simpa using pySort_perm_aux le l []

/-- `pySort` preserves membership. -/
theorem pySort_mem {α : Type} (le : α → α → Bool) (l : List α) (a : α) :
    a ∈ pySort le l ↔ a ∈ l :=
  (pySort_perm le l).mem_iff

/-- `pySort` preserves length. -/
theorem pySort_length {α : Type} (le : α → α → Bool) (l : List α) :
    (pySort le l).length = l.length :=
  (pySort_perm le l).length_eq

/-- Insertion preserves sortedness for a transitive, total comparison. -/
theorem insertLe_sorted {α : Type} (le : α → α → Bool)
    (htrans : ∀ a b c, le a b = true → le b c = true → le a c = true)
    (htotal : ∀ a b, (le a b || le b a) = true) (a : α) (l : List α)
    (hl : List.Pairwise (fun x y => le x y = true) l) :
    List.Pairwise (fun x y => le x y = true) (insertLe le a l) := by
  induction l with
  | nil => simp [insertLe]
  | cons h t ih =>
    rcases List.pairwise_cons.mp hl with ⟨hh, ht⟩
    by_cases hc : le h a
    · simp only [insertLe, if_pos hc]
      refine List.pairwise_cons.mpr ⟨?_, ih ht⟩
      intro y hy
      rcases List.mem_cons.mp ((insertLe_perm le a t).mem_iff.mp hy) with rfl | hyt
      · exact hc
      · exact hh y hyt
    · simp only [insertLe, if_neg hc]
      have hah : le a h = true := by
        have h1 := htotal h a
        simp only [hc, Bool.false_or] at h1
        exact h1
      refine List.pairwise_cons.mpr ⟨?_, hl⟩
      intro y hy
      rcases List.mem_cons.mp hy with rfl | hyt
      · exact hah
      · exact htrans a h y hah (hh y hyt)

/-- The insertion-sort fold keeps a sorted accumulator sorted. -/
theorem pySort_sorted_aux {α : Type} (le : α → α → Bool)
    (htrans : ∀ a b c, le a b = true → le b c = true → le a c = true)
    (htotal : ∀ a b, (le a b || le b a) = true) :
    ∀ (l acc : List α),
      List.Pairwise (fun x y => le x y = true) acc →
      List.Pairwise (fun x y => le x y = true)
        (l.foldl (fun acc x => insertLe le x acc) acc) := by
  intro l
  induction l with
  | nil => intro acc h; exact h
  | cons x t ih =>
    intro acc h
    exact ih _ (insertLe_sorted le htrans htotal x acc h)

/-- `pySort` sorts, for a transitive, total comparison. -/
theorem pySort_sorted {α : Type} (le : α → α → Bool)
    (htrans : ∀ a b c, le a b = true → le b c = true → le a c = true)
    (htotal : ∀ a b, (le a b || le b a) = true) (l : List α) :
    List.Pairwise (fun x y => le x y = true) (pySort le l) :=
  pySort_sorted_aux le htrans htotal l [] List.Pairwise.nil

/-- `intMin` is bounded by its first argument. -/
theorem intMin_le_left (a b : Int) : intMin a b ≤ a := by
  by_cases h : b < a
  · simp only [intMin, if_pos h]
    exact le_of_lt h
  · simp only [intMin, if_neg h]
    exact le_refl a

/-- `intMin` is bounded by its second argument. -/
theorem intMin_le_right (a b : Int) : intMin a b ≤ b := by
  by_cases h : b < a
  · simp only [intMin, if_pos h]
    exact le_refl b
  · simp only [intMin, if_neg h]
    exact le_of_not_lt h

/-- `intMin` is one of its arguments. -/
theorem intMin_choice (a b : Int) : intMin a b = a ∨ intMin a b = b := by
  by_cases h : b < a
  · right; simp [intMin, h]
  · left; simp [intMin, h]

/-- `intMax` dominates its first argument. -/
theorem le_intMax_left (a b : Int) : a ≤ intMax a b := by
  by_cases h : a < b
  · simp only [intMax, if_pos h]
    exact le_of_lt h
  · simp only [intMax, if_neg h]
    exact le_refl a

/-- `intMax` dominates its second argument. -/
theorem le_intMax_right (a b : Int) : b ≤ intMax a b := by
  by_cases h : a < b
  · simp only [intMax, if_pos h]
    exact le_refl b
  · simp only [intMax, if_neg h]
    exact le_of_not_lt h

/-- `intMax` is one of its arguments. -/
theorem intMax_choice (a b : Int) : intMax a b = a ∨ intMax a b = b := by
  by_cases h : a < b
  · right; simp [intMax, h]
  · left; simp [intMax, h]

/-- A row with a title is enriched to some record. -/
theorem enrichOne_some (d w : String) (r : RawRow) (t : String)
    (ht : r.title = some t) : ∃ j, enrichOne d w r = some j := by
  simp only [enrichOne, ht]
  exact ⟨_, rfl⟩

/-- A row without a title is dropped. -/
theorem enrichOne_none (d w : String) (r : RawRow)
    (ht : r.title = none) : enrichOne d w r = none := by
  simp only [enrichOne, ht]

/-! ## C1: first-match-wins job categorization -/

/-- C1: for every title, `categorize_job` lowercases the title and returns
the label of the earliest matching rule of `CATEGORY_RULES` (first match
wins), `Other AI Role` when no keyword occurs; a missing title also yields
`Other AI Role`; and the title `Data Engineer, AI` is decided by the earlier
specific rule `data engineer`, giving `Data Engineer`, before the later
generic `, ai` catch-all is reached. -/
theorem categorize_job_first_match_wins :
    (∀ t : String, categorize_job (some t) = categorizeSpec t) ∧
    categorize_job none = "Other AI Role" ∧
    categorize_job (some "Data Engineer, AI") = "Data Engineer" := by
  refine ⟨?_, rfl, by decide⟩
  intro t
  by_cases h : t = ""
  · subst h; decide
  · simp [categorize_job, categorizeSpec, h, firstRuleMatch_eq_find]

/-! ## C2: salary parsing and hourly annualization -/

/-- C2: a raw amount becomes an integer exactly when present and parseable
(`parsedAmt`), and under an hourly interval the hourly conversion yields,
for every parsed amount `n`, exactly `n * 2080` when `n < 500` and `n`
unchanged otherwise (the code's extra truthiness test `if salary_min` makes
no difference to the value, since `0 * 2080 = 0`); in particular a row with
`min_amount = 45` and `interval = "hourly"` is enriched with
`salary_min = 93600`, and one with `min_amount = 600` keeps `600`. -/
theorem salary_normalization_annualizes_below_500 :
    (∀ amt : Option (Option Int), ∀ n : Int,
      parsedAmt amt = some n ↔ amt = some (some n)) ∧
    (∀ (b : Bool) (a : Option Int),
      annualize b a = a.map fun n => if b = true ∧ n < 500 then n * 2080 else n) ∧
    (enrichOne "d" "w"
        { title := some "t", min_amount := some (some 45),
          interval := some "hourly" }).map Job.salary_min = some (some 93600) ∧
    (enrichOne "d" "w"
        { title := some "t", min_amount := some (some 600),
          interval := some "hourly" }).map Job.salary_min = some (some 600) := by
  refine ⟨?_, ?_, by decide, by decide⟩
  · intro amt n
    match amt with
    | none => simp [parsedAmt]
    | some none => simp [parsedAmt]
    | some (some m) => simp [parsedAmt]
  · intro b a
    match b, a with
    | false, none => rfl
    | false, some n => simp [annualize]
    | true, none => rfl
    | true, some n =>
      by_cases h0 : n = 0
      · subst h0; simp [annualize, truthy]
      · by_cases h5 : n < 500 <;> simp [annualize, truthy, h0, h5]

/-! ## C4: empty-collection aggregation -/

/-- C4: aggregating the empty collection is total and yields zero total
jobs, a tech percentage of exactly 0 (the division is behind the
`if jobs else 0` guard) and an empty salary-statistics block. -/
theorem empty_aggregation_is_guarded :
    (generate_market_intelligence []).total_jobs = 0 ∧
    (generate_market_intelligence []).tech_percentage = 0 ∧
    (generate_market_intelligence []).salary_stats = none :=
  ⟨rfl, rfl, rfl⟩

/-! ## C5: additive data-quality score -/

/-- An `if b then k else 0` contribution as `k` times a 0/1 indicator. -/
theorem indicator_eq (b : Bool) (k : Nat) :
    (if b = true then k else 0) = k * b.toNat := by
  cases b <;> simp

set_option maxRecDepth 4096 in
/-- C5: the data-quality score is the sum of exactly the four independent
presence checks (+40 long description, +30 either raw salary bound, +15
non-placeholder location, +15 non-placeholder company), the label thresholds
are ≥85 Premium / ≥55 Good / else Basic, a fully populated record (150-char
description, `max_amount` 100000, location Austin, company Acme) scores 100
= Premium, and a record with only a title scores 0 = Basic. -/
theorem data_quality_score_is_additive :
    (∀ (d l c : Option String) (mn mx : Option (Option Int)),
      calculate_data_quality d l c mn mx = qualitySpecScore d l c mn mx) ∧
    (∀ n : Nat, get_data_quality_label n =
      if 85 ≤ n then "Premium" else if 55 ≤ n then "Good" else "Basic") ∧
    (calculate_data_quality (some longDescription) (some "Austin")
        (some "Acme") none (some (some 100000)) = 100 ∧
      get_data_quality_label (calculate_data_quality (some longDescription)
        (some "Austin") (some "Acme") none (some (some 100000))) = "Premium") ∧
    (calculate_data_quality none none none none none = 0 ∧
      get_data_quality_label (calculate_data_quality none none none none none)
        = "Basic") := by
  refine ⟨?_, fun n => rfl, ⟨by decide, by decide⟩, ⟨rfl, rfl⟩⟩
  intro d l c mn mx
  cases d <;> cases l <;> cases c <;>
    simp only [calculate_data_quality, qualitySpecScore, Option.any,
      indicator_eq]

/-! ## C6: one enriched record per titled raw record -/

/-- C6: `process_jobs` yields exactly one enriched record per raw record
with a title and none for a title-less record, so the output length is the
input length minus the number of title-less records. -/
theorem process_jobs_length (importDate importWeek : String)
    (df : List RawRow) :
    (process_jobs importDate importWeek df).length =
      df.length - (df.filter fun r => r.title.isNone).length := by
  induction df with
  | nil => rfl
  | cons r rest ih =>
    have hle := List.length_filter_le (fun r : RawRow => r.title.isNone) rest
    simp only [process_jobs] at ih ⊢
    cases ht : r.title with
    | none =>
      have he := enrichOne_none importDate importWeek r ht
      rw [List.filterMap_cons, he, List.filter_cons]
      simp only [ht, Option.isNone_none, if_pos, List.length_cons]
      omega
    | some t =>
      obtain ⟨j, hj⟩ := enrichOne_some importDate importWeek r t ht
      rw [List.filterMap_cons, hj, List.filter_cons]
      simp only [ht, Option.isNone_some, Bool.false_eq_true, if_false,
        List.length_cons]
      omega

/-- Witness for C6 on a two-row collection, one row titled and one not:
one enriched record survives. -/
theorem process_jobs_length_witness :
    (process_jobs "2025-01-06" "2025-W01"
        [{ title := some "x" }, ({} : RawRow)]).length =
      ([{ title := some "x" }, ({} : RawRow)] : List RawRow).length -
        (([{ title := some "x" }, ({} : RawRow)] : List RawRow).filter
          fun r => r.title.isNone).length :=
  process_jobs_length "2025-01-06" "2025-W01" [{ title := some "x" }, {}]

/-! ## C7: total enrichment with documented defaults -/

/-- C7: the embedded classifier is total — a row with a title is always
enriched (there is no error branch to reach) — and every malformed or
unmatched optional field degrades to its documented default: a title
matching no seniority pattern gives seniority `Mid`, a title matching no
category rule gives `Other AI Role`, a location matching no metro pattern
gives a null metro, and missing or unparseable numeric salary cells give
null salaries. -/
theorem enrichment_degrades_to_defaults (d w : String) (r : RawRow)
    (t : String) (ht : r.title = some t)
    (hsen : firstLevelMatch SENIORITY_PATTERNS (lower t.toList) = none)
    (hcat : firstRuleMatch CATEGORY_RULES (lower t.toList) = none)
    (hmet : normalize_metro (some (r.location.getD "")) = none)
    (hmin : parsedAmt r.min_amount = none)
    (hmax : parsedAmt r.max_amount = none) :
    ∃ j, enrichOne d w r = some j ∧ j.seniority = "Mid" ∧
      j.job_category = "Other AI Role" ∧ j.metro = none ∧
      j.salary_min = none ∧ j.salary_max = none := by
  simp only [String.toList] at hsen hcat
  simp only [enrichOne, ht]
  refine ⟨_, rfl, ?_, ?_, hmet, ?_, ?_⟩
  · by_cases h : t = ""
    · simp [classify_seniority, h]
    · simp [classify_seniority, h, hsen]
  · by_cases h : t = ""
    · simp [categorize_job, h]
    · simp [categorize_job, h, hcat]
  · rw [hmin, annualize_none]
  · rw [hmax, annualize_none]

/-- Witness for C7 at `c7Row`. -/
theorem enrichment_degrades_to_defaults_witness :
    c7Row.title = some "zzzz" ∧
    firstLevelMatch SENIORITY_PATTERNS (lower "zzzz".toList) = none ∧
    firstRuleMatch CATEGORY_RULES (lower "zzzz".toList) = none ∧
    normalize_metro (some (c7Row.location.getD "")) = none ∧
    parsedAmt c7Row.min_amount = none ∧
    parsedAmt c7Row.max_amount = none ∧
    (∃ j, enrichOne "2025-01-06" "2025-W01" c7Row = some j ∧
      j.seniority = "Mid" ∧ j.job_category = "Other AI Role" ∧
      j.metro = none ∧ j.salary_min = none ∧ j.salary_max = none) :=
  ⟨rfl, by decide, by decide, by decide, rfl, rfl,
    enrichment_degrades_to_defaults "2025-01-06" "2025-W01" c7Row "zzzz" rfl
      (by decide) (by decide) (by decide) rfl rfl⟩

/-! ## C10: derived-field aliases inside one enriched record -/

/-- C10: in every enriched record, `is_remote` is exactly the test
`remote_type == "remote"`, and `min_amount`/`max_amount` are aliases of
`salary_min`/`salary_max` — the two representations cannot disagree. -/
theorem enriched_aliases_agree (d w : String) (r : RawRow) (j : Job)
    (h : enrichOne d w r = some j) :
    j.is_remote = (j.remote_type == "remote") ∧
    j.min_amount = j.salary_min ∧ j.max_amount = j.salary_max := by
  cases ht : r.title with
  | none => rw [enrichOne_none d w r ht] at h; exact absurd h (by simp)
  | some t =>
    simp only [enrichOne, ht, Option.some_inj] at h
    subst h
    exact ⟨rfl, rfl, rfl⟩

/-- Witness for C10 at `c10Row`. -/
theorem enriched_aliases_agree_witness :
    c10Job.is_remote = (c10Job.remote_type == "remote") ∧
    c10Job.min_amount = c10Job.salary_min ∧
    c10Job.max_amount = c10Job.salary_max :=
  enriched_aliases_agree "2025-01-06" "2025-W01" c10Row c10Job (by decide)

/-! ## C3: global salary statistics -/

/-- A left fold by `intMin` is bounded by its initial value. -/
theorem foldlMin_le_init (t : List Int) : ∀ acc : Int, t.foldl intMin acc ≤ acc := by
  induction t with
  | nil => intro acc; simp
  | cons y ys ih =>
    intro acc
    exact le_trans (ih (intMin acc y)) (intMin_le_left _ _)

/-- A left fold by `intMin` is bounded by every list element. -/
theorem foldlMin_le_mem (t : List Int) : ∀ acc : Int, ∀ x ∈ t, t.foldl intMin acc ≤ x := by
  induction t with
  | nil => intro acc x hx; simp at hx
  | cons y ys ih =>
    intro acc x hx
    simp only [List.foldl_cons]
    rcases List.mem_cons.mp hx with rfl | hx'
    · exact le_trans (foldlMin_le_init ys (intMin acc x)) (intMin_le_right _ _)
    · exact ih (intMin acc y) x hx'

/-- A left fold by `intMin` is the initial value or a list element. -/
theorem foldlMin_mem (t : List Int) : ∀ acc : Int, t.foldl intMin acc = acc ∨ t.foldl intMin acc ∈ t := by
  induction t with
  | nil => intro acc; left; rfl
  | cons y ys ih =>
    intro acc
    simp only [List.foldl_cons]
    rcases ih (intMin acc y) with h | h
    · rcases intMin_choice acc y with hc | hc
      · left; rw [h, hc]
      · right; rw [h, hc]; exact List.mem_cons_self _ _
    · right; exact List.mem_cons_of_mem _ h

/-- A left fold by `intMax` dominates its initial value. -/
theorem foldlMax_init_le (t : List Int) : ∀ acc : Int, acc ≤ t.foldl intMax acc := by
  induction t with
  | nil => intro acc; simp
  | cons y ys ih =>
    intro acc
    exact le_trans (le_intMax_left _ _) (ih (intMax acc y))

/-- A left fold by `intMax` dominates every list element. -/
theorem foldlMax_mem_le (t : List Int) : ∀ acc : Int, ∀ x ∈ t, x ≤ t.foldl intMax acc := by
  induction t with
  | nil => intro acc x hx; simp at hx
  | cons y ys ih =>
    intro acc x hx
    simp only [List.foldl_cons]
    rcases List.mem_cons.mp hx with rfl | hx'
    · exact le_trans (le_intMax_right _ _) (foldlMax_init_le ys (intMax acc x))
    · exact ih (intMax acc y) x hx'

/-- A left fold by `intMax` is the initial value or a list element. -/
theorem foldlMax_mem (t : List Int) : ∀ acc : Int, t.foldl intMax acc = acc ∨ t.foldl intMax acc ∈ t := by
  induction t with
  | nil => intro acc; left; rfl
  | cons y ys ih =>
    intro acc
    simp only [List.foldl_cons]
    rcases ih (intMax acc y) with h | h
    · rcases intMax_choice acc y with hc | hc
      · left; rw [h, hc]
      · right; rw [h, hc]; exact List.mem_cons_self _ _
    · right; exact List.mem_cons_of_mem _ h

/-- The Python `min` of a nonempty list is an element of it. -/
theorem pyMin_mem (l : List Int) (hl : l ≠ []) : pyMin l ∈ l := by
  cases l with
  | nil => exact absurd rfl hl
  | cons a t =>
    rcases foldlMin_mem t a with h | h
    · simp [pyMin, h]
    · simp only [pyMin]
      exact List.mem_cons_of_mem _ h

/-- The Python `min` of a list bounds every element from below. -/
theorem pyMin_le (l : List Int) (x : Int) (hx : x ∈ l) : pyMin l ≤ x := by
  cases l with
  | nil => simp at hx
  | cons a t =>
    rcases List.mem_cons.mp hx with rfl | hx'
    · simpa [pyMin] using foldlMin_le_init t x
    · simpa [pyMin] using foldlMin_le_mem t a x hx'

/-- The Python `max` of a nonempty list is an element of it. -/
theorem pyMax_mem (l : List Int) (hl : l ≠ []) : pyMax l ∈ l := by
  cases l with
  | nil => exact absurd rfl hl
  | cons a t =>
    rcases foldlMax_mem t a with h | h
    · simp [pyMax, h]
    · simp only [pyMax]
      exact List.mem_cons_of_mem _ h

/-- The Python `max` of a list dominates every element. -/
theorem pyMax_ge (l : List Int) (x : Int) (hx : x ∈ l) : x ≤ pyMax l := by
  cases l with
  | nil => simp at hx
  | cons a t =>
    rcases List.mem_cons.mp hx with rfl | hx'
    · simpa [pyMax] using foldlMax_init_le t x
    · simpa [pyMax] using foldlMax_mem_le t a x hx'

/-- `sortInt` permutes its input. -/
theorem sortInt_perm (l : List Int) : (sortInt l).Perm l :=
  pySort_perm _ l

/-- `sortInt` preserves length. -/
theorem sortInt_length (l : List Int) : (sortInt l).length = l.length :=
  pySort_length _ l

/-- `sortInt` of a nonempty list is nonempty. -/
theorem sortInt_ne_nil (l : List Int) (h : l ≠ []) : sortInt l ≠ [] := by
  intro h0
  apply h
  have := congrArg List.length h0
  rw [sortInt_length] at this
  exact List.length_eq_zero.mp this

/-- The salary-statistics record of a nonempty sample list, spelled out. -/
theorem salaryStats_ne_nil (l : List Int) (h : l ≠ []) :
    salaryStats l = some
      { min := pyMin (sortInt l), max := pyMax (sortInt l),
        median := (sortInt l).getD ((sortInt l).length / 2) 0,
        avg := Int.fdiv (sortInt l).sum ((sortInt l).length : Int),
        count := (sortInt l).length } := by
  cases l with
  | nil => exact absurd rfl h
  | cons a t => rfl

/-- C3 counterexample: both enriched records have a non-null `salary_max`
(0 and 100000), yet `if job.get('salary_max')` (Python truthiness) drops the
0 sample, so `count_with_salary` is 1 — not 2, the number of records with
non-null `salary_max` — and `min` is 100000 — not 0, the minimum of those
values. -/
theorem salary_stats_truthiness_drops_zero :
    truthyDropJobs.map Job.salary_max = [some 0, some 100000] ∧
    (generate_market_intelligence truthyDropJobs).salary_stats =
      some { min := 100000, max := 100000, median := 100000,
             avg := 100000, count := 1 } :=
  ⟨by decide, by decide⟩

/-- C3 (amended): over the truthy (non-null and nonzero) `salary_max`
samples, when at least one exists, the reported statistics are the true
minimum and maximum of the samples, the element at floor-division index
`len // 2` of a sorted copy (no statistical interpolation), the
floor-truncated mean `sum // count`, and the sample count. -/
theorem salary_stats_amended (jobs : List Job)
    (h : salariesOf jobs ≠ []) :
    ∃ s, (generate_market_intelligence jobs).salary_stats = some s ∧
      s.count = (salariesOf jobs).length ∧
      s.min ∈ salariesOf jobs ∧ (∀ x ∈ salariesOf jobs, s.min ≤ x) ∧
      s.max ∈ salariesOf jobs ∧ (∀ x ∈ salariesOf jobs, x ≤ s.max) ∧
      s.median = (sortInt (salariesOf jobs)).getD
        ((salariesOf jobs).length / 2) 0 ∧
      s.median ∈ salariesOf jobs ∧
      s.avg = Int.fdiv (salariesOf jobs).sum ((salariesOf jobs).length : Int) := by
  have hproj : (generate_market_intelligence jobs).salary_stats =
      salaryStats (salariesOf jobs) := rfl
  have hs := salaryStats_ne_nil (salariesOf jobs) h
  have hne := sortInt_ne_nil (salariesOf jobs) h
  have hperm := sortInt_perm (salariesOf jobs)
  have hlen := sortInt_length (salariesOf jobs)
  refine ⟨_, hproj.trans hs, ?_, ?_, ?_, ?_, ?_, ?_, ?_, ?_⟩
  · exact hlen
  · exact hperm.mem_iff.mp (pyMin_mem _ hne)
  · intro x hx
    exact pyMin_le _ x (hperm.mem_iff.mpr hx)
  · exact hperm.mem_iff.mp (pyMax_mem _ hne)
  · intro x hx
    exact pyMax_ge _ x (hperm.mem_iff.mpr hx)
  · rw [hlen]
  · have hpos : 0 < (sortInt (salariesOf jobs)).length := by
      rw [hlen]
      exact List.length_pos.mpr h
    have hi : (sortInt (salariesOf jobs)).length / 2 <
        (sortInt (salariesOf jobs)).length :=
      Nat.div_lt_self hpos (by norm_num)
    rw [List.getD_eq_getElem _ _ hi]
    exact hperm.mem_iff.mp (List.getElem_mem hi)
  · rw [hperm.sum_eq, hlen]

/-- Witness for the amended C3 at the specification's five-record example:
median 110000, mean 124000, count 5. -/
theorem salary_stats_amended_witness :
    salariesOf salaryExampleJobs ≠ [] ∧
    (∃ s, (generate_market_intelligence salaryExampleJobs).salary_stats = some s ∧
      s.count = (salariesOf salaryExampleJobs).length ∧
      s.min ∈ salariesOf salaryExampleJobs ∧
      (∀ x ∈ salariesOf salaryExampleJobs, s.min ≤ x) ∧
      s.max ∈ salariesOf salaryExampleJobs ∧
      (∀ x ∈ salariesOf salaryExampleJobs, x ≤ s.max) ∧
      s.median = (sortInt (salariesOf salaryExampleJobs)).getD
        ((salariesOf salaryExampleJobs).length / 2) 0 ∧
      s.median ∈ salariesOf salaryExampleJobs ∧
      s.avg = Int.fdiv (salariesOf salaryExampleJobs).sum
        ((salariesOf salaryExampleJobs).length : Int)) ∧
    (generate_market_intelligence salaryExampleJobs).salary_stats =
      some { min := 90000, max := 200000, median := 110000,
             avg := 124000, count := 5 } :=
  ⟨by decide, salary_stats_amended salaryExampleJobs (by decide), by decide⟩

/-! ## C8: collect-all skill extraction -/

/-- The code-point comparison `strLe` is total. -/
theorem strLe_total (a : Str) : ∀ b : Str, (strLe a b || strLe b a) = true := by
  induction a with
  | nil => intro b; simp [strLe]
  | cons x xs ih =>
    intro b
    cases b with
    | nil => simp [strLe]
    | cons y ys =>
      by_cases hxy : x = y
      · subst hxy
        simpa [strLe] using ih ys
      · have hyx : ¬y = x := fun h => hxy h.symm
        simp only [strLe, if_neg hxy, if_neg hyx, Bool.or_eq_true,
          decide_eq_true_eq]
        exact lt_or_gt_of_ne hxy

/-- The code-point comparison `strLe` is transitive. -/
theorem strLe_trans (a : Str) :
    ∀ b c : Str, strLe a b = true → strLe b c = true → strLe a c = true := by
  induction a with
  | nil => intro b c _ _; simp [strLe]
  | cons x xs ih =>
    intro b c hab hbc
    cases b with
    | nil => simp [strLe] at hab
    | cons y ys =>
      cases c with
      | nil => simp [strLe] at hbc
      | cons z zs =>
        by_cases hxy : x = y <;> by_cases hyz : y = z
        · subst hxy; subst hyz
          simp only [strLe, if_pos rfl] at hab hbc ⊢
          exact ih ys zs hab hbc
        · subst hxy
          simp only [strLe, if_pos rfl, if_neg hyz, decide_eq_true_eq] at hbc ⊢
          exact hbc
        · subst hyz
          simp only [strLe, if_neg hxy, decide_eq_true_eq] at hab ⊢
          exact hab
        · simp only [strLe, if_neg hxy, if_neg hyz, decide_eq_true_eq] at hab hbc
          have hxz : x < z := lt_trans hab hbc
          simp only [strLe, if_neg (ne_of_lt hxz), decide_eq_true_eq]
          exact hxz

/-- C8: `extract_skills` is collect-all and case-insensitive — a canonical
skill name is in the result exactly when some keyword variant of the
many-to-one `SKILL_KEYWORDS` table is a substring of the lowered
description — the result is deduplicated and sorted, and the description
`We use PyTorch, LangChain and AWS SageMaker` yields exactly the skills
AWS, LangChain, PyTorch, SageMaker. -/
theorem extract_skills_collects_all :
    (∀ t c : String,
      c ∈ extract_skills (some t) ↔
        ∃ kw, (kw, c) ∈ SKILL_KEYWORDS ∧ inStr kw (lower t.toList) = true) ∧
    (∀ t : String, (extract_skills (some t)).Nodup) ∧
    (∀ t : String, List.Pairwise
      (fun a b : String => strLe a.toList b.toList = true)
      (extract_skills (some t))) ∧
    extract_skills (some "We use PyTorch, LangChain and AWS SageMaker") =
      ["AWS", "LangChain", "PyTorch", "SageMaker"] := by
  refine ⟨?_, ?_, ?_, by decide⟩
  · intro t c
    by_cases h : t = ""
    · subst h
      constructor
      · intro hc
        simp [extract_skills] at hc
      · rintro ⟨kw, hkw, hin⟩
        have hnone : ∀ p ∈ SKILL_KEYWORDS,
            ¬inStr p.1 (lower "".toList) = true := by decide
        exact absurd hin (hnone (kw, c) hkw)
    · simp only [extract_skills, if_neg h, sortedStrings, pySort_mem,
        List.mem_dedup, List.mem_filterMap]
      constructor
      · rintro ⟨⟨kw, v⟩, hmem, hif⟩
        by_cases hin : inStr kw (lower t.toList)
        · rw [if_pos hin] at hif
          exact ⟨kw, by simpa [← Option.some_inj.mp hif] using hmem, hin⟩
        · rw [if_neg hin] at hif
          exact absurd hif.symm (Option.some_ne_none c)
      · rintro ⟨kw, hmem, hin⟩
        exact ⟨(kw, c), hmem, by rw [if_pos hin]⟩
  · intro t
    by_cases h : t = ""
    · subst h
      simp [extract_skills]
    · simp only [extract_skills, if_neg h, sortedStrings]
      exact (pySort_perm _ _).symm.nodup (List.nodup_dedup _)
  · intro t
    by_cases h : t = ""
    · subst h
      simp [extract_skills]
    · simp only [extract_skills, if_neg h, sortedStrings]
      exact pySort_sorted _
        (fun a b c hab hbc => strLe_trans a.toList b.toList c.toList hab hbc)
        (fun a b => strLe_total a.toList b.toList) _

/-! ## C9: categorical counters partition the collection -/

/-- One `bump` adds exactly one to the counter total. -/
theorem sumCounts_bump (k : String) (c : List (String × Nat)) :
    sumCounts (bump k c) = sumCounts c + 1 := by
  induction c with
  | nil => rfl
  | cons p rest ih =>
    obtain ⟨a, n⟩ := p
    by_cases h : a = k
    · simp only [bump, if_pos h, sumCounts, List.map_cons, List.sum_cons]
      omega
    · simp only [bump, if_neg h, sumCounts, List.map_cons, List.sum_cons] at ih ⊢
      omega

/-- The counter fold adds the number of processed keys to the total. -/
theorem sumCounts_countList_aux (ks : List String) :
    ∀ acc : List (String × Nat),
      sumCounts (ks.foldl (fun a k => bump k a) acc) =
        sumCounts acc + ks.length := by
  induction ks with
  | nil => intro acc; simp
  | cons k rest ih =>
    intro acc
    simp only [List.foldl_cons, ih (bump k acc), sumCounts_bump,
      List.length_cons]
    omega

/-- A counter built from a key list totals the number of keys. -/
theorem sumCounts_countList (ks : List String) :
    sumCounts (countList ks) = ks.length := by
  simpa [countList, sumCounts] using sumCounts_countList_aux ks []

/-- Permuting counter entries keeps the total. -/
theorem sumCounts_perm {c c' : List (String × Nat)} (h : c.Perm c') :
    sumCounts c = sumCounts c' :=
  (h.map Prod.snd).sum_eq

/-- The `most_common()` reordering keeps the counter total. -/
theorem sumCounts_mostCommonAll (c : List (String × Nat)) :
    sumCounts (mostCommonAll c) = sumCounts c :=
  sumCounts_perm (pySort_perm _ c)

/-- Truncating a counter cannot increase its total. -/
theorem sumCounts_take_le (n : Nat) (c : List (String × Nat)) :
    sumCounts (c.take n) ≤ sumCounts c := by
  conv_rhs => rw [← List.take_append_drop n c]
  simp only [sumCounts, List.map_append, List.sum_append]
  exact Nat.le_add_right _ _

/-- A `filterMap` projection never yields more entries than its input. -/
theorem length_filterMap_le {α β : Type} (f : α → Option β) (l : List α) :
    (l.filterMap f).length ≤ l.length := by
  induction l with
  | nil => exact Nat.le_refl 0
  | cons a t ih =>
    rw [List.filterMap_cons]
    cases f a with
    | none => exact Nat.le_succ_of_le ih
    | some b => simpa using ih

/-- C9: every record contributes exactly one increment to each untruncated
categorical counter of the intelligence summary, so `categories`,
`experience_levels`, `seniority_breakdown`, `remote_breakdown` and
`data_quality_breakdown` each total `total_jobs`; `top_metros` may total
less (null metros are skipped and only ten metros are kept). -/
theorem counters_partition_jobs (jobs : List Job) :
    sumCounts (generate_market_intelligence jobs).categories = jobs.length ∧
    sumCounts (generate_market_intelligence jobs).experience_levels = jobs.length ∧
    sumCounts (generate_market_intelligence jobs).seniority_breakdown = jobs.length ∧
    sumCounts (generate_market_intelligence jobs).remote_breakdown = jobs.length ∧
    sumCounts (generate_market_intelligence jobs).data_quality_breakdown = jobs.length ∧
    (generate_market_intelligence jobs).total_jobs = jobs.length ∧
    sumCounts (generate_market_intelligence jobs).top_metros ≤ jobs.length := by
  refine ⟨?_, ?_, ?_, ?_, ?_, rfl, ?_⟩
  · show sumCounts (mostCommonAll (countList (jobs.map (·.job_category)))) = jobs.length
    rw [sumCounts_mostCommonAll, sumCounts_countList, List.length_map]
  · show sumCounts (countList (jobs.map (·.experience_level))) = jobs.length
    rw [sumCounts_countList, List.length_map]
  · show sumCounts (countList (jobs.map (·.seniority))) = jobs.length
    rw [sumCounts_countList, List.length_map]
  · show sumCounts (countList (jobs.map (·.remote_type))) = jobs.length
    rw [sumCounts_countList, List.length_map]
  · show sumCounts (countList (jobs.map (·.data_quality))) = jobs.length
    rw [sumCounts_countList, List.length_map]
  · show sumCounts (mostCommonTake 10 (countList (jobs.filterMap (·.metro)))) ≤ jobs.length
    calc sumCounts (mostCommonTake 10 (countList (jobs.filterMap (·.metro))))
        ≤ sumCounts (mostCommonAll (countList (jobs.filterMap (·.metro)))) :=
          sumCounts_take_le 10 _
      _ = (jobs.filterMap (·.metro)).length := by
          rw [sumCounts_mostCommonAll, sumCounts_countList]
      _ ≤ jobs.length := length_filterMap_le _ jobs

/-- Witness for C9 on the singleton collection `[c10Job]`. -/
theorem counters_partition_jobs_witness :
    sumCounts (generate_market_intelligence [c10Job]).categories = [c10Job].length ∧
    sumCounts (generate_market_intelligence [c10Job]).experience_levels = [c10Job].length ∧
    sumCounts (generate_market_intelligence [c10Job]).seniority_breakdown = [c10Job].length ∧
    sumCounts (generate_market_intelligence [c10Job]).remote_breakdown = [c10Job].length ∧
    sumCounts (generate_market_intelligence [c10Job]).data_quality_breakdown = [c10Job].length ∧
    (generate_market_intelligence [c10Job]).total_jobs = [c10Job].length ∧
    sumCounts (generate_market_intelligence [c10Job]).top_metros ≤ [c10Job].length :=
  counters_partition_jobs [c10Job]

end EnrichJobs
